import Mathlib

/-!
Verification development for the SentinelX secure-report pipeline.

The development shallowly embeds the pipeline's source components:
  * the client-side crypto utilities (frontend/src/utils/crypto.js,
    class E2EECrypto) together with their call site in IncidentForm.jsx;
  * the gateway API handlers (Express server: POST /api/reports,
    GET /api/reports/:reportId/status, POST /api/webhook/processing-complete),
    with the Redis keyspace and the S3 bucket as explicit state;
  * the IncidentProof Solidity contract and the EthereumProof client.

External libraries (CryptoJS, node crypto, JSON, keccak256) are modelled by
concrete executable stand-ins that satisfy the library contracts the code
relies on; every definition mirrors the control flow and data flow of the
corresponding source function.
-/

/-! ## Generic association-list store

Redis hashes, the Redis keyspace, and Solidity mappings are all modelled as
association lists with in-place update. -/

def assocFind {κ α : Type} [DecidableEq κ] : List (κ × α) → κ → Option α
  | [], _ => none
  | (k, v) :: t, q => if k = q then some v else assocFind t q

def assocSet {κ α : Type} [DecidableEq κ] : List (κ × α) → κ → α → List (κ × α)
  | [], q, w => [(q, w)]
  | (k, v) :: t, q, w => if k = q then (q, w) :: t else (k, v) :: assocSet t q w

theorem assocFind_assocSet_self {κ α : Type} [DecidableEq κ]
    (l : List (κ × α)) (k : κ) (v : α) : assocFind (assocSet l k v) k = some v := by
  induction l with
  | nil => simp [assocSet, assocFind]
  | cons p t ih =>
    obtain ⟨pk, pv⟩ := p
    by_cases h : pk = k
    · subst h
      simp [assocSet, assocFind]
    · simp [assocSet, assocFind, h, ih]

theorem assocFind_assocSet_ne {κ α : Type} [DecidableEq κ]
    (l : List (κ × α)) (q k : κ) (hne : q ≠ k) (v : α) :
    assocFind (assocSet l k v) q = assocFind l q := by
  induction l with
  | nil => simp [assocSet, assocFind, Ne.symm hne]
  | cons p t ih =>
    obtain ⟨pk, pv⟩ := p
    by_cases h : pk = k
    · subst h
      simp [assocSet, assocFind, Ne.symm hne]
    · by_cases h2 : pk = q <;> simp [assocSet, assocFind, h, h2, ih, hne]

theorem assocSet_of_find_eq {κ α : Type} [DecidableEq κ]
    (l : List (κ × α)) (k : κ) (v : α) (hf : assocFind l k = some v) :
    assocSet l k v = l := by
  induction l with
  | nil => simp [assocFind] at hf
  | cons p t ih =>
    obtain ⟨pk, pv⟩ := p
    by_cases h : pk = k
    · subst h
      simp [assocFind] at hf
      simp [assocSet, hf]
    · simp [assocFind, h] at hf
      simp [assocSet, h, ih hf]

/-! ## Redis hash model

A Redis hash is a field-to-value map; `hSet` with an object merges the given
fields into the hash, creating it when absent. -/

abbrev RedisHash := List (String × String)

def hashGet : RedisHash → String → Option String
  | [], _ => none
  | (g, w) :: t, f => if g = f then some w else hashGet t f

def hashSet : RedisHash → String → String → RedisHash
  | [], f, v => [(f, v)]
  | (g, w) :: t, f, v => if g = f then (f, v) :: t else (g, w) :: hashSet t f v

def hashSetMany (h : RedisHash) (fs : List (String × String)) : RedisHash :=
  fs.foldl (fun h p => hashSet h p.1 p.2) h

theorem hashGet_hashSet_self (h : RedisHash) (f v : String) :
    hashGet (hashSet h f v) f = some v := by
  induction h with
  | nil => simp [hashSet, hashGet]
  | cons p t ih =>
    obtain ⟨pf, pv⟩ := p
    by_cases hp : pf = f
    · subst hp
      simp [hashSet, hashGet]
    · simp [hashSet, hashGet, hp, ih]

theorem hashGet_hashSet_ne (f g : String) (hne : f ≠ g) (h : RedisHash) (v : String) :
    hashGet (hashSet h g v) f = hashGet h f := by
  induction h with
  | nil => simp [hashSet, hashGet, Ne.symm hne]
  | cons p t ih =>
    obtain ⟨pf, pv⟩ := p
    by_cases hp : pf = g
    · subst hp
      simp [hashSet, hashGet, Ne.symm hne]
    · by_cases h2 : pf = f <;> simp [hashSet, hashGet, hp, h2, ih, hne]

theorem hashSet_hashSet_self (h : RedisHash) (f v w : String) :
    hashSet (hashSet h f v) f w = hashSet h f w := by
  induction h with
  | nil => simp [hashSet]
  | cons p t ih =>
    obtain ⟨pf, pv⟩ := p
    by_cases hp : pf = f
    · subst hp
      simp [hashSet]
    · simp [hashSet, hp, ih]

theorem hashSet_of_hashGet_eq (h : RedisHash) (f v : String) (hf : hashGet h f = some v) :
    hashSet h f v = h := by
  induction h with
  | nil => simp [hashGet] at hf
  | cons p t ih =>
    obtain ⟨pf, pv⟩ := p
    by_cases hp : pf = f
    · subst hp
      simp [hashGet] at hf
      simp [hashSet, hf]
    · simp [hashGet, hp] at hf
      simp [hashSet, hp, ih hf]

/-! ## Digest and cipher models

The repository calls external cryptographic primitives (CryptoJS.SHA3,
CryptoJS.AES with a string passphrase, node crypto.createCipher,
ethers.keccak256).  They are modelled by concrete executable functions:
digests are injective folds (an idealisation of collision resistance, which
the specification itself assumes), and the password-based ciphers are
keystream ciphers whose keystream depends exactly on the inputs the real
key-derivation consumes (passphrase and salt).  None of the claims proved
below depends on any further property of the primitives. -/

def strDigest (seed : Nat) (s : String) : Nat :=
  s.data.foldl (fun a c => a * 1114112 + c.toNat + 1) seed

/-- Model of the CryptoJS EVP keystream (EVP_BytesToKey key/iv derivation from
passphrase and salt, followed by the block cipher) at stream position i. -/
def evpStream (pass : String) (salt i : Nat) : Nat :=
  (strDigest 1 pass * (salt + 1) + i * 97) % 1114112

def streamEnc (pass : String) (salt : Nat) : Nat → List Char → List Nat
  | _, [] => []
  | i, c :: t => (c.toNat + evpStream pass salt i) :: streamEnc pass salt (i + 1) t

def streamDec (pass : String) (salt : Nat) : Nat → List Nat → List Nat
  | _, [] => []
  | i, b :: t => (b - evpStream pass salt i) :: streamDec pass salt (i + 1) t

/-- Model of WordArray.toString(CryptoJS.enc.Utf8): decoding fails (the
library throws "Malformed UTF-8 data") when the bytes are not a valid
encoding, and otherwise yields the decoded string. -/
def wordsToUtf8 (bs : List Nat) : Option String :=
  if bs.all (fun b => decide (Nat.isValidChar b)) then
    some (String.mk (bs.map Char.ofNat))
  else none

theorem streamDec_streamEnc (pass : String) (salt : Nat) (l : List Char) :
    ∀ i, streamDec pass salt i (streamEnc pass salt i l) = l.map Char.toNat := by
  induction l with
  | nil => intro i; simp [streamEnc, streamDec]
  | cons c t ih => intro i; simp [streamEnc, streamDec, ih]

theorem wordsToUtf8_map_toNat (l : List Char) :
    wordsToUtf8 (l.map Char.toNat) = some (String.mk l) := by
  have hall : ∀ b ∈ l.map Char.toNat, Nat.isValidChar b := by
    intro b hb
    rcases List.mem_map.mp hb with ⟨c, _, hc⟩
    exact hc ▸ c.valid
  rw [wordsToUtf8, if_pos]
  · congr 1
    rw [List.map_map]
    exact congrArg String.mk (List.map_congr_left (fun c _ => Char.ofNat_toNat c) |>.trans (List.map_id _))
  · rw [List.all_eq_true]
    intro b hb
    exact decide_eq_true (hall b hb)

/-- Model of the OpenSSL-format string returned by CryptoJS
cipherParams.toString(): it carries the random salt together with the
ciphertext bytes. -/
structure AesCiphertext where
  salt : Nat
  bytes : List Nat
deriving DecidableEq

/-- Model of CryptoJS.AES.encrypt(message, passphrase): the salt is the random
value drawn by the library for this call (passed explicitly), the key and iv
are derived from (passphrase, salt), and the result embeds the salt. -/
def aesEncrypt (message pass : String) (salt : Nat) : AesCiphertext :=
  { salt := salt, bytes := streamEnc pass salt 0 message.data }

/-- Model of CryptoJS.AES.decrypt(ciphertext, passphrase): the key and iv are
re-derived from the salt embedded in the OpenSSL-format ciphertext; the raw
result is returned without any authentication check (the library mode carries
no authentication tag). -/
def aesDecryptRaw (ct : AesCiphertext) (pass : String) : List Nat :=
  streamDec pass ct.salt 0 ct.bytes

theorem aesDecryptRaw_aesEncrypt (message pass : String) (salt : Nat) :
    aesDecryptRaw (aesEncrypt message pass salt) pass = message.data.map Char.toNat := by
  simp [aesEncrypt, aesDecryptRaw, streamDec_streamEnc]

/-! ## Client crypto utilities (frontend/src/utils/crypto.js)

The report fields serialized by the client are the JSON-representable fields
of the IncidentForm state (title, description, category, severity); File
attachments do not survive JSON.stringify and travel separately as multipart
uploads.  JSON.stringify / JSON.parse are JS built-ins; they are modelled by
a concrete injective serialization together with its partial inverse. -/

structure ReportFields where
  title : String
  description : String
  category : String
  severity : String
deriving DecidableEq

/-- Serialization of one string field: a self-delimiting encoding (unary
length prefix) standing in for a JSON quoted string. -/
def encField (s : String) : List Char :=
  List.replicate s.length 'L' ++ ':' :: s.data

def decField (cs : List Char) : Option (String × List Char) :=
  let n := (cs.takeWhile (fun c => c == 'L')).length
  match cs.dropWhile (fun c => c == 'L') with
  | ':' :: t => if n ≤ t.length then some (String.mk (t.take n), t.drop n) else none
  | _ => none

theorem takeWhile_replicate_colon (t : List Char) :
    ∀ n, (List.replicate n 'L' ++ ':' :: t).takeWhile (fun c => c == 'L') =
      List.replicate n 'L'
  | 0 => by simp [List.takeWhile_cons]
  | n + 1 => by
    simp only [List.replicate, List.cons_append, List.takeWhile_cons]
    simp [takeWhile_replicate_colon t n]

theorem dropWhile_replicate_colon (t : List Char) :
    ∀ n, (List.replicate n 'L' ++ ':' :: t).dropWhile (fun c => c == 'L') = ':' :: t
  | 0 => by simp [List.dropWhile_cons]
  | n + 1 => by
    simp only [List.replicate, List.cons_append, List.dropWhile_cons]
    simp [dropWhile_replicate_colon t n]

theorem decField_encField (s : String) (r : List Char) :
    decField (encField s ++ r) = some (s, r) := by
  have hassoc : encField s ++ r =
      List.replicate s.length 'L' ++ ':' :: (s.data ++ r) := by
    simp [encField]
  rw [decField, hassoc, takeWhile_replicate_colon, dropWhile_replicate_colon]
  simp only [List.length_replicate]
  have hlen : s.length ≤ (s.data ++ r).length := by
    rw [List.length_append]
    exact Nat.le_add_right _ _
  rw [if_pos hlen]
  have htake : (s.data ++ r).take s.length = s.data := List.take_left s.data r
  have hdrop : (s.data ++ r).drop s.length = r := List.drop_left s.data r
  rw [htake, hdrop]

def encFields (f : ReportFields) : List Char :=
  encField f.title ++ (encField f.description ++ (encField f.category ++ encField f.severity))

def decFields (cs : List Char) : Option ReportFields :=
  (decField cs).bind fun p1 =>
    (decField p1.2).bind fun p2 =>
      (decField p2.2).bind fun p3 =>
        (decField p3.2).bind fun p4 =>
          if p4.2.isEmpty then some ⟨p1.1, p2.1, p3.1, p4.1⟩ else none

theorem decFields_encFields (f : ReportFields) : decFields (encFields f) = some f := by
  rw [encFields, decFields, decField_encField]
  simp only [Option.some_bind]
  rw [decField_encField]
  simp only [Option.some_bind]
  rw [decField_encField]
  simp only [Option.some_bind]
  have h4 : encField f.severity = encField f.severity ++ [] := by simp
  rw [h4, decField_encField]
  simp

/-- Model of JSON.stringify restricted to report-field objects. -/
def stringifyFields (f : ReportFields) : String := String.mk (encFields f)

/-- Model of JSON.parse on the same domain: the partial inverse of
stringifyFields, failing on any string that is not a serialized object. -/
def parseFields (s : String) : Option ReportFields := decFields s.data

theorem parseFields_stringifyFields (f : ReportFields) :
    parseFields (stringifyFields f) = some f := decFields_encFields f

/-- The iv derived by the EVP key derivation from passphrase and salt
(surfaced by CryptoJS as cipherParams.iv). -/
def evpIV (pass : String) (salt : Nat) : Nat :=
  (strDigest 4 pass + salt * 31) % 4294967296

/-- The encrypted payload object built by E2EECrypto.encryptReport and sent
as `encryptedData`: ciphertext string plus the optional iv and salt fields. -/
structure EncryptedPayload where
  ciphertext : AesCiphertext
  iv : Option String
  salt : Option String
deriving DecidableEq

def optStr : Option String → String
  | none => "null"
  | some s => s

/-- Rendering of the ciphertext object as the string JSON.stringify sees. -/
def ctToString (c : AesCiphertext) : String :=
  toString c.salt ++ "#" ++ String.intercalate "," (c.bytes.map toString)

/-- Model of JSON.stringify applied to the whole encrypted payload object:
the serialization covers the ciphertext AND the iv and salt fields. -/
def stringifyPayload (e : EncryptedPayload) : String :=
  "ciphertext=" ++ ctToString e.ciphertext ++ ";iv=" ++ optStr e.iv ++
    ";salt=" ++ optStr e.salt

/-- Model of CryptoJS.SHA3 with outputLength 256: an injective digest of its
input string (idealised collision resistance, an assumption the spec makes). -/
def sha3of256 (s : String) : Nat := strDigest 5 s

/-- Model of the crypto-js block-cipher mode table: CBC (the default), CFB,
CTR, CTRGladman, OFB and ECB exist.  There is no GCM mode, so the property
access CryptoJS.mode.GCM in the source evaluates to undefined (none). -/
inductive CipherMode
  | CBC
  | CFB
  | CTR
  | CTRGladman
  | OFB
  | ECB
deriving DecidableEq

/-- The source's CryptoJS.mode.GCM: crypto-js has no GCM mode, so this
JavaScript property access yields undefined. -/
def cryptoJsModeGCM : Option CipherMode := none

/-- Model of CryptoJS.AES.encrypt(message, passphrase, cfg) with a mode in
cfg: Base.extend/mixIn copies the cfg value over the CBC default even when
it is undefined, and BlockCipher.reset then dereferences
mode.createEncryptor, so an undefined mode throws TypeError before any
encryption happens. -/
def aesEncryptWithMode (message pass : String) (salt : Nat)
    (mode : Option CipherMode) : Except String AesCiphertext :=
  match mode with
  | none =>
    Except.error "TypeError: Cannot read properties of undefined (reading createEncryptor)"
  | some _ => Except.ok (aesEncrypt message pass salt)

/-- Model of CryptoJS.AES.decrypt(ciphertext, passphrase, cfg) with a mode
in cfg: an undefined mode likewise throws TypeError from BlockCipher.reset
before any plaintext is produced. -/
def aesDecryptWithMode (ct : AesCiphertext) (pass : String)
    (mode : Option CipherMode) : Except String (List Nat) :=
  match mode with
  | none =>
    Except.error "TypeError: Cannot read properties of undefined (reading createDecryptor)"
  | some _ => Except.ok (aesDecryptRaw ct pass)

namespace E2EECrypto

/-- E2EECrypto.encryptReport: JSON.stringify the fields and call
CryptoJS.AES.encrypt with the passphrase key, a fresh random salt (passed
explicitly), and the cfg mode CryptoJS.mode.GCM — which is undefined in
crypto-js, so the call throws TypeError for every input and the payload
object (ciphertext string plus iv and salt rendered by toString()) is never
built. -/
def encryptReport (data : ReportFields) (key : String) (salt : Nat) :
    Except String EncryptedPayload :=
  match aesEncryptWithMode (stringifyFields data) key salt cryptoJsModeGCM with
  | Except.error e => Except.error e
  | Except.ok encrypted =>
    Except.ok
      { ciphertext := encrypted
        iv := some (toString (evpIV key salt))
        salt := some (toString salt) }

/-- E2EECrypto.decryptReport: call CryptoJS.AES.decrypt with the passphrase
key and the same undefined CryptoJS.mode.GCM cfg mode — the call throws
TypeError for every input; were a mode defined, the library would re-derive
key and iv from the salt embedded in the ciphertext string, UTF-8 decode the
raw result (throwing on malformed bytes) and JSON.parse it. -/
def decryptReport (encryptedData : EncryptedPayload) (key : String) :
    Except String ReportFields :=
  match aesDecryptWithMode encryptedData.ciphertext key cryptoJsModeGCM with
  | Except.error e => Except.error e
  | Except.ok bs =>
    match wordsToUtf8 bs with
    | none => Except.error "Malformed UTF-8 data"
    | some s =>
      match parseFields s with
      | none => Except.error "JSON.parse: unexpected token"
      | some f => Except.ok f

/-- E2EECrypto.wrapKey: AES-encrypt the symmetric key string under the
recipient public key used as a passphrase. -/
def wrapKey (symmetricKey recipientPublicKey : String) (salt : Nat) : AesCiphertext :=
  aesEncrypt symmetricKey recipientPublicKey salt

/-- E2EECrypto.unwrapKey: AES-decrypt the wrapped key under the private key
and UTF-8 decode the raw result.  There is no authentication and no uniform
error: the only possible failure is the UTF-8 decoding of garbage bytes. -/
def unwrapKey (wrappedKey : AesCiphertext) (privateKey : String) : Option String :=
  wordsToUtf8 (aesDecryptRaw wrappedKey privateKey)

/-- E2EECrypto.hashContent: SHA3-256 of JSON.stringify(content).  In
IncidentForm.handleSubmit it is applied to the whole encryptedReport object. -/
def hashContent (content : EncryptedPayload) : Nat :=
  sha3of256 (stringifyPayload content)

end E2EECrypto

/-! ## Gateway API (Express server)

The gateway state is the Redis keyspace (hashes keyed by strings such as
report:reportId and result:reportId), the gpu-worker-queue list, and the S3
bucket.  The uuid and Date values produced inside the handlers are passed in
explicitly. -/

structure FileUpload where
  originalname : String
  buffer : List Nat
deriving DecidableEq

structure FileUrl where
  key : String
  url : String
  originalName : String
deriving DecidableEq

structure S3Object where
  key : String
  body : List Nat
  contentType : String
  serverSideEncryption : String
  metaOriginalName : String
  metaReportId : String
deriving DecidableEq

structure GatewayState where
  redis : List (String × RedisHash)
  queue : List String
  s3 : List (String × S3Object)
deriving DecidableEq

def storeGetHash (r : List (String × RedisHash)) (k : String) : RedisHash :=
  (assocFind r k).getD []

/-- Model of redisClient.hSet(key, fields): merge the fields into the hash at
key, creating the hash when the key is absent. -/
def storeSet (r : List (String × RedisHash)) (k : String) (fs : List (String × String)) :
    List (String × RedisHash) :=
  assocSet r k (hashSetMany (storeGetHash r k) fs)

/-- Truthiness of an optional request-body string, as tested by the
`if (!encryptedData || !wrappedKey || !contentHash)` guard. -/
def truthy : Option String → Bool
  | none => false
  | some s => !s.isEmpty

/-- Request body (and multipart files) of POST /api/reports. -/
structure SubmitRequest where
  encryptedData : Option String
  wrappedKey : Option String
  contentHash : Option String
  ethTxHash : Option String
  files : List FileUpload
deriving DecidableEq

structure JobData where
  reportId : String
  encryptedData : Option String
  wrappedKey : Option String
  contentHash : Option String
  files : List FileUrl
  timestamp : String
deriving DecidableEq

/-- Model of JSON.stringify(jobData): an injective flat rendering (the string
is only stored and queued, never parsed by the handlers). -/
def jobDataToString (j : JobData) : String :=
  j.reportId ++ ";" ++ optStr j.encryptedData ++ ";" ++ optStr j.wrappedKey ++ ";" ++
    optStr j.contentHash ++ ";" ++
    String.intercalate "|" (j.files.map (fun f => f.key ++ "," ++ f.url ++ "," ++ f.originalName)) ++
    ";" ++ j.timestamp

/-- Model of the keystream of crypto.createCipher('aes-256-gcm', wrappedKey):
createCipher derives the cipher key from its password argument alone
(EVP_BytesToKey), so the keystream is a function of that password. -/
def nodeStream (password : String) (i : Nat) : Nat :=
  (strDigest 6 password + i * 131) % 256

/-- Model of cipher.update(buffer) + cipher.final() for the createCipher
cipher keyed by the password. -/
def createCipherEnc (password : String) : Nat → List Nat → List Nat
  | _, [] => []
  | i, b :: t => (b + nodeStream password i) % 256 :: createCipherEnc password (i + 1) t

def s3Location (key : String) : String := "https://s3.amazonaws.com/" ++ key

/-- The per-file loop of the POST /api/reports handler: build the S3 key from
a fresh uuid, encrypt the file content with the createCipher cipher keyed by
the request's wrappedKey, and upload with ServerSideEncryption AES256. -/
def processFiles (wrappedKey reportId : String) :
    List (FileUpload × String) → List (String × S3Object) × List FileUrl
  | [] => ([], [])
  | (f, u) :: t =>
    let fileKey := "reports/" ++ reportId ++ "/" ++ u ++ "-" ++ f.originalname
    let obj : S3Object :=
      { key := fileKey
        body := createCipherEnc wrappedKey 0 f.buffer
        contentType := "application/octet-stream"
        serverSideEncryption := "AES256"
        metaOriginalName := f.originalname
        metaReportId := reportId }
    let rest := processFiles wrappedKey reportId t
    ((fileKey, obj) :: rest.1, ⟨fileKey, s3Location fileKey, f.originalname⟩ :: rest.2)

inductive SubmitResponse
  | missingFields
  | serverError
  | ok (reportId status message : String)
deriving DecidableEq

/-- POST /api/reports handler.  reportId is the uuidv4 drawn at the top of
the handler, fileUuids the per-file uuids, now the handler's timestamp.
After validation the handler uploads the files, lPushes the job onto
gpu-worker-queue, and only then hSets the report metadata.  reportMetadata
always carries an ethTxHash field: when the request body has no ethTxHash
its value is undefined, the node-redis v4 hSet rejects an undefined argument
(TypeError: Invalid argument type), the await throws after the queue push,
and the catch responds 500 Internal server error with no report hash
written.  When an ethTxHash is present the metadata hash is written with
status "received" while the HTTP response reports status "queued". -/
def postReports (st : GatewayState) (req : SubmitRequest) (reportId : String)
    (fileUuids : List String) (now : String) : GatewayState × SubmitResponse :=
  if truthy req.encryptedData && truthy req.wrappedKey && truthy req.contentHash then
    let processed := processFiles (optStr req.wrappedKey) reportId (req.files.zip fileUuids)
    let jobData : JobData :=
      { reportId := reportId
        encryptedData := req.encryptedData
        wrappedKey := req.wrappedKey
        contentHash := req.contentHash
        files := processed.2
        timestamp := now }
    match req.ethTxHash with
    | none =>
      ({ redis := st.redis
         queue := jobDataToString jobData :: st.queue
         s3 := st.s3 ++ processed.1 },
       SubmitResponse.serverError)
    | some v =>
      let metaFields : List (String × String) :=
        [("reportId", reportId), ("contentHash", optStr req.contentHash),
         ("ethTxHash", v), ("timestamp", now), ("status", "received"),
         ("filesCount", toString req.files.length),
         ("jobData", jobDataToString jobData)]
      ({ redis := storeSet st.redis ("report:" ++ reportId) metaFields
         queue := jobDataToString jobData :: st.queue
         s3 := st.s3 ++ processed.1 },
       SubmitResponse.ok reportId "queued" "Report received and queued for processing")
  else (st, SubmitResponse.missingFields)

inductive StatusResponse
  | notFound
  | ok (reportId : String) (status timestamp : Option String) (filesCount : Nat)
      (redactionPreview ethTxHash : Option String)
deriving DecidableEq

/-- GET /api/reports/:reportId/status handler: 404 when the stored hash has
no truthy reportId field, otherwise the stored status, metadata, and the
redaction summary from the result hash. -/
def getStatus (st : GatewayState) (reportId : String) : StatusResponse :=
  let reportData := storeGetHash st.redis ("report:" ++ reportId)
  match hashGet reportData "reportId" with
  | none => StatusResponse.notFound
  | some rid =>
    if rid.isEmpty then StatusResponse.notFound
    else
      let resultData := storeGetHash st.redis ("result:" ++ reportId)
      StatusResponse.ok reportId (hashGet reportData "status")
        (hashGet reportData "timestamp")
        (((hashGet reportData "filesCount").bind String.toNat?).getD 0)
        (hashGet resultData "redactionSummary")
        (hashGet reportData "ethTxHash")

def statusResponseFound : StatusResponse → Bool
  | StatusResponse.notFound => false
  | StatusResponse.ok _ _ _ _ _ _ => true

def statusResponseStatus : StatusResponse → Option String
  | StatusResponse.notFound => none
  | StatusResponse.ok _ s _ _ _ _ => s

/-- Request body of POST /api/webhook/processing-complete; redactionSummary
and processedFiles are carried as their serialized JSON forms. -/
structure WebhookRequest where
  reportId : String
  status : String
  redactionSummary : String
  processedFiles : String
deriving DecidableEq

/-- POST /api/webhook/processing-complete handler: unconditionally hSet the
status field of report:reportId, then write the result hash, and respond
success: true.  There is no existence check and no terminal-state check. -/
def postWebhook (st : GatewayState) (req : WebhookRequest) (now : String) :
    GatewayState × Bool :=
  ({ st with
      redis :=
        storeSet
          (storeSet st.redis ("report:" ++ req.reportId) [("status", req.status)])
          ("result:" ++ req.reportId)
          [("redactionSummary", req.redactionSummary),
           ("processedFiles", req.processedFiles),
           ("completedAt", now)] },
   true)

theorem report_ne_result (rid : String) : ("report:" ++ rid) ≠ ("result:" ++ rid) := by
  intro h
  have h2 : ("report:" ++ rid).data = ("result:" ++ rid).data := congrArg String.data h
  have h3 : ("report:" : String).data ++ rid.data = ("result:" : String).data ++ rid.data := h2
  have h4 : ("report:" : String).data = ("result:" : String).data :=
    (List.append_inj h3 (by decide)).1
  exact absurd h4 (by decide)

/-! ## IncidentProof contract (Solidity)

Addresses and bytes32 values are modelled as Nat (with 0 as the zero hash /
default), block.timestamp and msg.sender are explicit arguments, and a
reverted call leaves the state unchanged and surfaces the require message. -/

structure Report where
  contentHash : Nat
  reporter : Nat
  timestamp : Nat
  status : String
  existsFlag : Bool
deriving DecidableEq

/-- The default Report value a Solidity mapping yields for an absent key. -/
def emptyReport : Report := ⟨0, 0, 0, "", false⟩

structure ProofState where
  reports : List (Nat × Report)
  reportsByAddress : List (Nat × List Nat)
  owner : Nat
deriving DecidableEq

def getReportRec (st : ProofState) (contentHash : Nat) : Report :=
  (assocFind st.reports contentHash).getD emptyReport

/-- IncidentProof.submitReport: requires a nonzero hash, a nonempty status,
and no existing record; stores the record and indexes it by sender. -/
def submitReport (st : ProofState) (sender blockTime contentHash : Nat)
    (status : String) : Except String ProofState :=
  if contentHash = 0 then Except.error "Invalid content hash"
  else if status = "" then Except.error "Status cannot be empty"
  else if (getReportRec st contentHash).existsFlag then Except.error "Report already exists"
  else Except.ok
    { st with
      reports := assocSet st.reports contentHash
        ⟨contentHash, sender, blockTime, status, true⟩
      reportsByAddress := assocSet st.reportsByAddress sender
        (((assocFind st.reportsByAddress sender).getD []) ++ [contentHash]) }

/-- IncidentProof.getReport: requires the record to exist and returns
(timestamp, status, reporter). -/
def getReport (st : ProofState) (contentHash : Nat) :
    Except String (Nat × String × Nat) :=
  if (getReportRec st contentHash).existsFlag then
    Except.ok ((getReportRec st contentHash).timestamp,
      (getReportRec st contentHash).status,
      (getReportRec st contentHash).reporter)
  else Except.error "Report does not exist"

/-- IncidentProof.updateStatus: modifiers reportExists then onlyReporter
(reporter or owner), then requires a nonempty status and rewrites only the
status field. -/
def updateStatus (st : ProofState) (sender contentHash : Nat)
    (newStatus : String) : Except String ProofState :=
  if !(getReportRec st contentHash).existsFlag then Except.error "Report does not exist"
  else if !((getReportRec st contentHash).reporter = sender || st.owner = sender) then
    Except.error "Only reporter or owner can update"
  else if newStatus = "" then Except.error "Status cannot be empty"
  else Except.ok
    { st with
      reports := assocSet st.reports contentHash
        { getReportRec st contentHash with status := newStatus } }

/-- IncidentProof.emergencyUpdateStatus: onlyOwner then reportExists, then
rewrites only the status field (no nonempty-status require). -/
def emergencyUpdateStatus (st : ProofState) (sender contentHash : Nat)
    (newStatus : String) : Except String ProofState :=
  if !(st.owner = sender) then Except.error "Ownable: caller is not the owner"
  else if !(getReportRec st contentHash).existsFlag then Except.error "Report does not exist"
  else Except.ok
    { st with
      reports := assocSet st.reports contentHash
        { getReportRec st contentHash with status := newStatus } }

/-- IncidentProof.reportExists view. -/
def reportExistsView (st : ProofState) (contentHash : Nat) : Bool :=
  (getReportRec st contentHash).existsFlag

/-- Any state-mutating call a later transaction can make on the contract. -/
inductive ContractOp
  | submit (sender blockTime contentHash : Nat) (status : String)
  | update (sender contentHash : Nat) (newStatus : String)
  | emergency (sender contentHash : Nat) (newStatus : String)

/-- Execute one call; a reverted call leaves the state unchanged. -/
def applyOp (st : ProofState) : ContractOp → ProofState
  | ContractOp.submit a t h s =>
    match submitReport st a t h s with
    | Except.ok st2 => st2
    | Except.error _ => st
  | ContractOp.update a h s =>
    match updateStatus st a h s with
    | Except.ok st2 => st2
    | Except.error _ => st
  | ContractOp.emergency a h s =>
    match emergencyUpdateStatus st a h s with
    | Except.ok st2 => st2
    | Except.error _ => st

def runOps (st : ProofState) : List ContractOp → ProofState
  | [] => st
  | op :: t => runOps (applyOp st op) t

def reporterOf (r : Except String (Nat × String × Nat)) : Option Nat :=
  match r with
  | Except.ok p => some p.2.2
  | Except.error _ => none

/-! ## EthereumProof client (frontend/src/utils/ethereum.js)

The client keys every contract call by keccak256(toUtf8Bytes(contentHash)),
modelled by an injective digest of the content-hash string. -/

/-- Model of ethers.keccak256 of the UTF-8 bytes of a string: an injective
digest (idealised collision resistance); its value is never 0. -/
def keccakUtf8 (s : String) : Nat := strDigest 3 s

structure ClientProof where
  timestamp : Nat
  status : String
  reporter : Nat
deriving DecidableEq

/-- EthereumProof.submitProof: submitReport on keccak256 of the hash string. -/
def submitProof (st : ProofState) (sender blockTime : Nat) (contentHash status : String) :
    Except String ProofState :=
  submitReport st sender blockTime (keccakUtf8 contentHash) status

/-- EthereumProof.getProof: getReport on keccak256 of the hash string,
repackaged as a timestamp, status, reporter record. -/
def getProof (st : ProofState) (contentHash : String) : Except String ClientProof :=
  match getReport st (keccakUtf8 contentHash) with
  | Except.ok p => Except.ok ⟨p.1, p.2.1, p.2.2⟩
  | Except.error e => Except.error e

/-- EthereumProof.updateProof: updateStatus on keccak256 of the hash string. -/
def updateProof (st : ProofState) (sender : Nat) (contentHash newStatus : String) :
    Except String ProofState :=
  updateStatus st sender (keccakUtf8 contentHash) newStatus

/-! ## Webhook store lemmas -/

theorem storeGetHash_postWebhook_report (st : GatewayState) (req : WebhookRequest)
    (now : String) :
    storeGetHash ((postWebhook st req now).1).redis ("report:" ++ req.reportId) =
      hashSet (storeGetHash st.redis ("report:" ++ req.reportId)) "status" req.status := by
  have hne := report_ne_result req.reportId
  show storeGetHash
      (storeSet
        (storeSet st.redis ("report:" ++ req.reportId) [("status", req.status)])
        ("result:" ++ req.reportId)
        [("redactionSummary", req.redactionSummary),
         ("processedFiles", req.processedFiles), ("completedAt", now)])
      ("report:" ++ req.reportId) = _
  rw [storeGetHash, storeSet, storeSet,
    assocFind_assocSet_ne _ _ _ hne, assocFind_assocSet_self]
  rfl

/-- C2 (amended): the result-webhook handler unconditionally overwrites the
stored status with the callback's status, for every prior state; in
particular a terminal record is regressed by a later non-terminal callback. -/
theorem c2_applyResult_overwrites_status (st : GatewayState) (req : WebhookRequest)
    (now : String) :
    hashGet (storeGetHash ((postWebhook st req now).1).redis ("report:" ++ req.reportId))
      "status" = some req.status := by
  rw [storeGetHash_postWebhook_report]
  exact hashGet_hashSet_self _ _ _

/-- C2 counterexample: a record whose status is terminal (completed) is
changed to processing by a subsequent applyResult callback, so terminal
states are regressed, contrary to the claim that the record is unchanged. -/
theorem c2_terminal_regression_counterexample :
    hashGet
      (storeGetHash
        ((postWebhook
            ⟨[("report:r1", [("reportId", "r1"), ("status", "completed")])], [], []⟩
            ⟨"r1", "processing", "sum", "files"⟩ "t2").1).redis
        "report:r1") "status" = some "processing" ∧
    hashGet
      (storeGetHash
        (⟨[("report:r1", [("reportId", "r1"), ("status", "completed")])], [], []⟩ :
          GatewayState).redis "report:r1") "status" = some "completed" ∧
    some "processing" ≠ some "completed" := by
  refine ⟨by rfl, by rfl, by decide⟩

/-- C4 (amended): a result callback for a reportId unknown to the store does
not fail: the handler responds success and silently creates a partial
report hash holding only the status field (there is no UnknownReport check). -/
theorem c4_unknown_report_silent_creation (st : GatewayState) (req : WebhookRequest)
    (now : String) (hun : assocFind st.redis ("report:" ++ req.reportId) = none) :
    (postWebhook st req now).2 = true ∧
    storeGetHash ((postWebhook st req now).1).redis ("report:" ++ req.reportId) =
      [("status", req.status)] := by
  refine ⟨rfl, ?_⟩
  rw [storeGetHash_postWebhook_report, storeGetHash, hun]
  rfl

theorem c4_unknown_report_silent_creation_witness :
    (postWebhook ⟨[], [], []⟩ ⟨"ghost", "completed", "sum", "files"⟩ "t").2 = true ∧
    storeGetHash
      ((postWebhook ⟨[], [], []⟩ ⟨"ghost", "completed", "sum", "files"⟩ "t").1).redis
      "report:ghost" = [("status", "completed")] :=
  c4_unknown_report_silent_creation ⟨[], [], []⟩ ⟨"ghost", "completed", "sum", "files"⟩
    "t" (by rfl)

/-- C4 counterexample: the claim says a callback for an unknown reportId
fails with UnknownReport; in fact the handler succeeds (success: true). -/
theorem c4_unknown_report_counterexample :
    (postWebhook ⟨[], [], []⟩ ⟨"nobody", "processing", "s", "f"⟩ "t0").2 = true := by
  rfl

/-- Re-applying the identical webhook callback under the same Date reading
reproduces the state exactly: the handler overwrites every field it writes
with the value it already holds. -/
theorem postWebhook_idem_same_time (st : GatewayState) (req : WebhookRequest) (now : String) :
    postWebhook (postWebhook st req now).1 req now = postWebhook st req now := by
  have hne := report_ne_result req.reportId
  rcases st with ⟨R, q, s3⟩
  have hfind1 :
      assocFind
        (storeSet (storeSet R ("report:" ++ req.reportId) [("status", req.status)])
          ("result:" ++ req.reportId)
          [("redactionSummary", req.redactionSummary),
           ("processedFiles", req.processedFiles), ("completedAt", now)])
        ("report:" ++ req.reportId) =
      some (hashSetMany (storeGetHash R ("report:" ++ req.reportId))
        [("status", req.status)]) := by
    show assocFind
        (assocSet
          (assocSet R ("report:" ++ req.reportId)
            (hashSetMany (storeGetHash R ("report:" ++ req.reportId)) [("status", req.status)]))
          ("result:" ++ req.reportId) _)
        ("report:" ++ req.reportId) = _
    rw [assocFind_assocSet_ne _ _ _ hne, assocFind_assocSet_self]
  have hget1 :
      storeGetHash
        (storeSet (storeSet R ("report:" ++ req.reportId) [("status", req.status)])
          ("result:" ++ req.reportId)
          [("redactionSummary", req.redactionSummary),
           ("processedFiles", req.processedFiles), ("completedAt", now)])
        ("report:" ++ req.reportId) =
      hashSetMany (storeGetHash R ("report:" ++ req.reportId)) [("status", req.status)] := by
    rw [storeGetHash, hfind1]
    rfl
  have habs1 :
      hashSetMany
        (hashSetMany (storeGetHash R ("report:" ++ req.reportId)) [("status", req.status)])
        [("status", req.status)] =
      hashSetMany (storeGetHash R ("report:" ++ req.reportId)) [("status", req.status)] := by
    show hashSet (hashSet _ "status" req.status) "status" req.status =
      hashSet _ "status" req.status
    exact hashSet_hashSet_self _ _ _ _
  have step1 :
      storeSet
        (storeSet (storeSet R ("report:" ++ req.reportId) [("status", req.status)])
          ("result:" ++ req.reportId)
          [("redactionSummary", req.redactionSummary),
           ("processedFiles", req.processedFiles), ("completedAt", now)])
        ("report:" ++ req.reportId) [("status", req.status)] =
      storeSet (storeSet R ("report:" ++ req.reportId) [("status", req.status)])
        ("result:" ++ req.reportId)
        [("redactionSummary", req.redactionSummary),
         ("processedFiles", req.processedFiles), ("completedAt", now)] := by
    show assocSet _ ("report:" ++ req.reportId)
        (hashSetMany
          (storeGetHash _ ("report:" ++ req.reportId)) [("status", req.status)]) = _
    rw [hget1, habs1]
    exact assocSet_of_find_eq _ _ _ hfind1
  have hfind2 :
      assocFind
        (storeSet (storeSet R ("report:" ++ req.reportId) [("status", req.status)])
          ("result:" ++ req.reportId)
          [("redactionSummary", req.redactionSummary),
           ("processedFiles", req.processedFiles), ("completedAt", now)])
        ("result:" ++ req.reportId) =
      some (hashSetMany
        (storeGetHash (storeSet R ("report:" ++ req.reportId) [("status", req.status)])
          ("result:" ++ req.reportId))
        [("redactionSummary", req.redactionSummary),
         ("processedFiles", req.processedFiles), ("completedAt", now)]) := by
    exact assocFind_assocSet_self _ _ _
  have hget2 :
      storeGetHash
        (storeSet (storeSet R ("report:" ++ req.reportId) [("status", req.status)])
          ("result:" ++ req.reportId)
          [("redactionSummary", req.redactionSummary),
           ("processedFiles", req.processedFiles), ("completedAt", now)])
        ("result:" ++ req.reportId) =
      hashSetMany
        (storeGetHash (storeSet R ("report:" ++ req.reportId) [("status", req.status)])
          ("result:" ++ req.reportId))
        [("redactionSummary", req.redactionSummary),
         ("processedFiles", req.processedFiles), ("completedAt", now)] := by
    rw [storeGetHash, hfind2]
    rfl
  have habs2 :
      hashSetMany
        (hashSetMany
          (storeGetHash (storeSet R ("report:" ++ req.reportId) [("status", req.status)])
            ("result:" ++ req.reportId))
          [("redactionSummary", req.redactionSummary),
           ("processedFiles", req.processedFiles), ("completedAt", now)])
        [("redactionSummary", req.redactionSummary),
         ("processedFiles", req.processedFiles), ("completedAt", now)] =
      hashSetMany
        (storeGetHash (storeSet R ("report:" ++ req.reportId) [("status", req.status)])
          ("result:" ++ req.reportId))
        [("redactionSummary", req.redactionSummary),
         ("processedFiles", req.processedFiles), ("completedAt", now)] := by
    have hg1 :
        hashGet
          (hashSetMany
            (storeGetHash (storeSet R ("report:" ++ req.reportId) [("status", req.status)])
              ("result:" ++ req.reportId))
            [("redactionSummary", req.redactionSummary),
             ("processedFiles", req.processedFiles), ("completedAt", now)])
          "redactionSummary" = some req.redactionSummary := by
      show hashGet (hashSet (hashSet (hashSet _ "redactionSummary" _) "processedFiles" _)
        "completedAt" _) "redactionSummary" = _
      rw [hashGet_hashSet_ne "redactionSummary" "completedAt" (by decide),
        hashGet_hashSet_ne "redactionSummary" "processedFiles" (by decide),
        hashGet_hashSet_self]
    have hg2 :
        hashGet
          (hashSetMany
            (storeGetHash (storeSet R ("report:" ++ req.reportId) [("status", req.status)])
              ("result:" ++ req.reportId))
            [("redactionSummary", req.redactionSummary),
             ("processedFiles", req.processedFiles), ("completedAt", now)])
          "processedFiles" = some req.processedFiles := by
      show hashGet (hashSet (hashSet (hashSet _ "redactionSummary" _) "processedFiles" _)
        "completedAt" _) "processedFiles" = _
      rw [hashGet_hashSet_ne "processedFiles" "completedAt" (by decide),
        hashGet_hashSet_self]
    have hg3 :
        hashGet
          (hashSetMany
            (storeGetHash (storeSet R ("report:" ++ req.reportId) [("status", req.status)])
              ("result:" ++ req.reportId))
            [("redactionSummary", req.redactionSummary),
             ("processedFiles", req.processedFiles), ("completedAt", now)])
          "completedAt" = some now := by
      show hashGet (hashSet (hashSet (hashSet _ "redactionSummary" _) "processedFiles" _)
        "completedAt" _) "completedAt" = _
      rw [hashGet_hashSet_self]
    show hashSet (hashSet (hashSet _ "redactionSummary" req.redactionSummary)
        "processedFiles" req.processedFiles) "completedAt" now = _
    rw [hashSet_of_hashGet_eq _ _ _ hg1, hashSet_of_hashGet_eq _ _ _ hg2,
      hashSet_of_hashGet_eq _ _ _ hg3]
  show
    (({ redis :=
          storeSet
            (storeSet
              (storeSet (storeSet R ("report:" ++ req.reportId) [("status", req.status)])
                ("result:" ++ req.reportId)
                [("redactionSummary", req.redactionSummary),
                 ("processedFiles", req.processedFiles), ("completedAt", now)])
              ("report:" ++ req.reportId) [("status", req.status)])
            ("result:" ++ req.reportId)
            [("redactionSummary", req.redactionSummary),
             ("processedFiles", req.processedFiles), ("completedAt", now)],
        queue := q, s3 := s3 } : GatewayState), true) =
    (({ redis :=
          storeSet (storeSet R ("report:" ++ req.reportId) [("status", req.status)])
            ("result:" ++ req.reportId)
            [("redactionSummary", req.redactionSummary),
             ("processedFiles", req.processedFiles), ("completedAt", now)],
        queue := q, s3 := s3 } : GatewayState), true)
  rw [step1]
  have hlast :
      storeSet
        (storeSet (storeSet R ("report:" ++ req.reportId) [("status", req.status)])
          ("result:" ++ req.reportId)
          [("redactionSummary", req.redactionSummary),
           ("processedFiles", req.processedFiles), ("completedAt", now)])
        ("result:" ++ req.reportId)
        [("redactionSummary", req.redactionSummary),
         ("processedFiles", req.processedFiles), ("completedAt", now)] =
      storeSet (storeSet R ("report:" ++ req.reportId) [("status", req.status)])
        ("result:" ++ req.reportId)
        [("redactionSummary", req.redactionSummary),
         ("processedFiles", req.processedFiles), ("completedAt", now)] := by
    show assocSet _ ("result:" ++ req.reportId)
        (hashSetMany (storeGetHash _ ("result:" ++ req.reportId))
          [("redactionSummary", req.redactionSummary),
           ("processedFiles", req.processedFiles), ("completedAt", now)]) = _
    rw [hget2, habs2]
    exact assocSet_of_find_eq _ _ _ hfind2
  rw [hlast]

theorem storeGetHash_postWebhook_result (st : GatewayState) (req : WebhookRequest)
    (now : String) :
    storeGetHash ((postWebhook st req now).1).redis ("result:" ++ req.reportId) =
      hashSetMany (storeGetHash st.redis ("result:" ++ req.reportId))
        [("redactionSummary", req.redactionSummary),
         ("processedFiles", req.processedFiles), ("completedAt", now)] := by
  have hne := report_ne_result req.reportId
  show storeGetHash
      (assocSet (storeSet st.redis ("report:" ++ req.reportId) [("status", req.status)])
        ("result:" ++ req.reportId)
        (hashSetMany
          (storeGetHash (storeSet st.redis ("report:" ++ req.reportId)
            [("status", req.status)]) ("result:" ++ req.reportId))
          [("redactionSummary", req.redactionSummary),
           ("processedFiles", req.processedFiles), ("completedAt", now)]))
      ("result:" ++ req.reportId) = _
  rw [storeGetHash, assocFind_assocSet_self]
  show hashSetMany
      (storeGetHash (assocSet st.redis ("report:" ++ req.reportId) _)
        ("result:" ++ req.reportId)) _ = _
  rw [storeGetHash, assocFind_assocSet_ne _ _ _ (Ne.symm hne)]
  rfl

theorem hashGet_resultFields_rs (h : RedisHash) (rs pf ca : String) :
    hashGet (hashSetMany h
      [("redactionSummary", rs), ("processedFiles", pf), ("completedAt", ca)])
      "redactionSummary" = some rs := by
  show hashGet (hashSet (hashSet (hashSet h "redactionSummary" rs) "processedFiles" pf)
    "completedAt" ca) "redactionSummary" = some rs
  rw [hashGet_hashSet_ne "redactionSummary" "completedAt" (by decide),
    hashGet_hashSet_ne "redactionSummary" "processedFiles" (by decide),
    hashGet_hashSet_self]

theorem hashGet_resultFields_pf (h : RedisHash) (rs pf ca : String) :
    hashGet (hashSetMany h
      [("redactionSummary", rs), ("processedFiles", pf), ("completedAt", ca)])
      "processedFiles" = some pf := by
  show hashGet (hashSet (hashSet (hashSet h "redactionSummary" rs) "processedFiles" pf)
    "completedAt" ca) "processedFiles" = some pf
  rw [hashGet_hashSet_ne "processedFiles" "completedAt" (by decide),
    hashGet_hashSet_self]

theorem hashGet_resultFields_ca (h : RedisHash) (rs pf ca : String) :
    hashGet (hashSetMany h
      [("redactionSummary", rs), ("processedFiles", pf), ("completedAt", ca)])
      "completedAt" = some ca := by
  show hashGet (hashSet (hashSet (hashSet h "redactionSummary" rs) "processedFiles" pf)
    "completedAt" ca) "completedAt" = some ca
  rw [hashGet_hashSet_self]

/-- C3 (amended): applyResult is idempotent up to the completedAt
bookkeeping timestamp: re-applying the identical (reportId, status,
redactionSummary, processedFiles) callback is accepted (success: true) and
leaves the stored status, redactionSummary and processedFiles exactly as
after the first application; only the completedAt field is rewritten to the
later delivery time, and a duplicate delivered under the same Date reading
reproduces the state exactly. -/
theorem c3_applyResult_idempotent_modulo_timestamp (st : GatewayState)
    (req : WebhookRequest) (t1 t2 : String) :
    (postWebhook (postWebhook st req t1).1 req t2).2 = true ∧
    hashGet (storeGetHash ((postWebhook (postWebhook st req t1).1 req t2).1).redis
        ("report:" ++ req.reportId)) "status" =
      hashGet (storeGetHash ((postWebhook st req t1).1).redis
        ("report:" ++ req.reportId)) "status" ∧
    hashGet (storeGetHash ((postWebhook (postWebhook st req t1).1 req t2).1).redis
        ("result:" ++ req.reportId)) "redactionSummary" =
      hashGet (storeGetHash ((postWebhook st req t1).1).redis
        ("result:" ++ req.reportId)) "redactionSummary" ∧
    hashGet (storeGetHash ((postWebhook (postWebhook st req t1).1 req t2).1).redis
        ("result:" ++ req.reportId)) "processedFiles" =
      hashGet (storeGetHash ((postWebhook st req t1).1).redis
        ("result:" ++ req.reportId)) "processedFiles" ∧
    hashGet (storeGetHash ((postWebhook (postWebhook st req t1).1 req t2).1).redis
        ("result:" ++ req.reportId)) "completedAt" = some t2 ∧
    (t1 = t2 → postWebhook (postWebhook st req t1).1 req t2 = postWebhook st req t1) := by
  refine ⟨rfl, ?_, ?_, ?_, ?_, ?_⟩
  · rw [storeGetHash_postWebhook_report ((postWebhook st req t1).1) req t2,
      storeGetHash_postWebhook_report st req t1,
      hashGet_hashSet_self, hashGet_hashSet_self]
  · rw [storeGetHash_postWebhook_result ((postWebhook st req t1).1) req t2,
      storeGetHash_postWebhook_result st req t1,
      hashGet_resultFields_rs, hashGet_resultFields_rs]
  · rw [storeGetHash_postWebhook_result ((postWebhook st req t1).1) req t2,
      storeGetHash_postWebhook_result st req t1,
      hashGet_resultFields_pf, hashGet_resultFields_pf]
  · rw [storeGetHash_postWebhook_result ((postWebhook st req t1).1) req t2,
      hashGet_resultFields_ca]
  · intro ht
    subst ht
    exact postWebhook_idem_same_time st req t1

theorem c3_applyResult_idempotent_modulo_timestamp_witness :
    postWebhook (postWebhook ⟨[], [], []⟩ ⟨"r1", "completed", "sum", "files"⟩ "t").1
        ⟨"r1", "completed", "sum", "files"⟩ "t" =
      postWebhook ⟨[], [], []⟩ ⟨"r1", "completed", "sum", "files"⟩ "t" :=
  (c3_applyResult_idempotent_modulo_timestamp ⟨[], [], []⟩
    ⟨"r1", "completed", "sum", "files"⟩ "t" "t").2.2.2.2.2 rfl

/-- C3 counterexample: a real duplicate of the identical callback arrives at
a later Date reading, and the handler rewrites completedAt with it: after
the second application the stored record holds completedAt t2 where the
first application stored t1, so the StatusRecord contents after the second
application do not equal its contents after the first. -/
theorem c3_identical_twice_counterexample :
    hashGet (storeGetHash ((postWebhook (postWebhook ⟨[], [], []⟩
        ⟨"r1", "completed", "sum", "files"⟩ "t1").1
        ⟨"r1", "completed", "sum", "files"⟩ "t2").1).redis "result:r1") "completedAt" =
      some "t2" ∧
    hashGet (storeGetHash ((postWebhook ⟨[], [], []⟩
        ⟨"r1", "completed", "sum", "files"⟩ "t1").1).redis "result:r1") "completedAt" =
      some "t1" ∧
    some "t2" ≠ some "t1" ∧
    (postWebhook (postWebhook ⟨[], [], []⟩ ⟨"r1", "completed", "sum", "files"⟩ "t1").1
        ⟨"r1", "completed", "sum", "files"⟩ "t2").1 ≠
      (postWebhook ⟨[], [], []⟩ ⟨"r1", "completed", "sum", "files"⟩ "t1").1 := by
  refine ⟨rfl, rfl, by decide, by decide⟩

/-! ## Submit and status lemmas -/

theorem getStatus_after_metaWrite
    (R : List (String × RedisHash)) (q : List String) (s3 : List (String × S3Object))
    (rid : String) (hie : rid.isEmpty = false) (M : List (String × String))
    (hgid : hashGet (hashSetMany (storeGetHash R ("report:" ++ rid)) M) "reportId" =
      some rid)
    (hgst : hashGet (hashSetMany (storeGetHash R ("report:" ++ rid)) M) "status" =
      some "received") :
    statusResponseFound (getStatus ⟨storeSet R ("report:" ++ rid) M, q, s3⟩ rid) = true ∧
    statusResponseStatus (getStatus ⟨storeSet R ("report:" ++ rid) M, q, s3⟩ rid) =
      some "received" := by
  have hrd : storeGetHash (storeSet R ("report:" ++ rid) M) ("report:" ++ rid) =
      hashSetMany (storeGetHash R ("report:" ++ rid)) M := by
    show (assocFind (assocSet R ("report:" ++ rid) _) ("report:" ++ rid)).getD [] = _
    rw [assocFind_assocSet_self]
    rfl
  constructor
  · simp [getStatus, hrd, hgid, hie, statusResponseFound]
  · simp [getStatus, hrd, hgid, hie, statusResponseStatus, hgst]

/-- C1 (amended): for a valid envelope submission (all three fields present)
with no attachments the behaviour splits on ethTxHash.  Without an ethTxHash
(the spec scenario) the metadata hSet rejects the undefined ethTxHash value
after the job was already queued: the handler responds 500 Internal server
error, no StatusRecord is written, and an immediate getStatus for the fresh
reportId returns NotFound.  With an ethTxHash, submit returns the fresh
reportId with response-body status "queued", but the StatusRecord is created
with status "received", which is what the immediate getStatus returns. -/
theorem c1_submit_status_received (st : GatewayState) (req : SubmitRequest)
    (rid now : String)
    (h1 : truthy req.encryptedData = true) (h2 : truthy req.wrappedKey = true)
    (h3 : truthy req.contentHash = true) (hf : req.files = []) (hr : rid ≠ "") :
    (req.ethTxHash = none →
      (postReports st req rid [] now).2 = SubmitResponse.serverError ∧
      ((postReports st req rid [] now).1).redis = st.redis ∧
      (assocFind st.redis ("report:" ++ rid) = none →
        getStatus (postReports st req rid [] now).1 rid = StatusResponse.notFound)) ∧
    (∀ v, req.ethTxHash = some v →
      (postReports st req rid [] now).2 =
        SubmitResponse.ok rid "queued" "Report received and queued for processing" ∧
      statusResponseFound (getStatus (postReports st req rid [] now).1 rid) = true ∧
      statusResponseStatus (getStatus (postReports st req rid [] now).1 rid) =
        some "received") := by
  have hcond :
      (truthy req.encryptedData && truthy req.wrappedKey && truthy req.contentHash) = true := by
    rw [h1, h2, h3]
    rfl
  have hie : rid.isEmpty = false := by
    cases he : rid.isEmpty
    · rfl
    · exact absurd ((String.isEmpty_iff rid).mp he) hr
  constructor
  · intro hopt
    rw [postReports, if_pos hcond, hf, hopt]
    refine ⟨rfl, rfl, ?_⟩
    intro hfresh
    show getStatus ⟨st.redis, _, _⟩ rid = StatusResponse.notFound
    rw [getStatus]
    show (match
        hashGet (storeGetHash st.redis ("report:" ++ rid)) "reportId" with
      | none => StatusResponse.notFound
      | some rid0 => _) = StatusResponse.notFound
    rw [storeGetHash, hfresh]
    rfl
  · intro v hopt
    rw [postReports, if_pos hcond, hf, hopt]
    refine ⟨rfl, ?_⟩
    refine getStatus_after_metaWrite st.redis _ _ rid hie _ ?_ ?_
    · show hashGet
        (hashSet (hashSet (hashSet (hashSet (hashSet (hashSet (hashSet _ "reportId" rid)
          "contentHash" _) "ethTxHash" v) "timestamp" _) "status" _) "filesCount" _)
          "jobData" _) "reportId" = some rid
      rw [hashGet_hashSet_ne "reportId" "jobData" (by decide),
        hashGet_hashSet_ne "reportId" "filesCount" (by decide),
        hashGet_hashSet_ne "reportId" "status" (by decide),
        hashGet_hashSet_ne "reportId" "timestamp" (by decide),
        hashGet_hashSet_ne "reportId" "ethTxHash" (by decide),
        hashGet_hashSet_ne "reportId" "contentHash" (by decide),
        hashGet_hashSet_self]
    · show hashGet
        (hashSet (hashSet (hashSet (hashSet (hashSet (hashSet (hashSet _ "reportId" rid)
          "contentHash" _) "ethTxHash" v) "timestamp" _) "status" "received")
          "filesCount" _) "jobData" _) "status" = some "received"
      rw [hashGet_hashSet_ne "status" "jobData" (by decide),
        hashGet_hashSet_ne "status" "filesCount" (by decide),
        hashGet_hashSet_self]

theorem c1_submit_status_received_witness :
    truthy (some "AB12") = true ∧ truthy (some "WK1") = true ∧
    truthy (some "H") = true ∧
    ((postReports ⟨[], [], []⟩ ⟨some "AB12", some "WK1", some "H", some "0xTX", []⟩
        "r1" [] "t0").2 =
      SubmitResponse.ok "r1" "queued" "Report received and queued for processing" ∧
    statusResponseFound
      (getStatus (postReports ⟨[], [], []⟩
        ⟨some "AB12", some "WK1", some "H", some "0xTX", []⟩
        "r1" [] "t0").1 "r1") = true ∧
    statusResponseStatus
      (getStatus (postReports ⟨[], [], []⟩
        ⟨some "AB12", some "WK1", some "H", some "0xTX", []⟩
        "r1" [] "t0").1 "r1") = some "received") :=
  ⟨rfl, rfl, rfl,
    (c1_submit_status_received ⟨[], [], []⟩
      ⟨some "AB12", some "WK1", some "H", some "0xTX", []⟩
      "r1" "t0" rfl rfl rfl rfl (by decide)).2 "0xTX" rfl⟩

/-- C1 counterexample: for the spec scenario itself (valid envelope, no
attachments, no ethTxHash), submit does not return an ok/queued response:
the handler responds 500 Internal server error (the metadata hSet rejects
the undefined ethTxHash), no StatusRecord is written, and the immediate
getStatus returns NotFound rather than queued. -/
theorem c1_status_queued_counterexample :
    (postReports ⟨[], [], []⟩ ⟨some "AB12", some "WK1", some "H", none, []⟩
        "r1" [] "t0").2 = SubmitResponse.serverError ∧
    SubmitResponse.serverError ≠
      SubmitResponse.ok "r1" "queued" "Report received and queued for processing" ∧
    getStatus (postReports ⟨[], [], []⟩ ⟨some "AB12", some "WK1", some "H", none, []⟩
        "r1" [] "t0").1 "r1" = StatusResponse.notFound := by
  refine ⟨rfl, by decide, rfl⟩

/-- C8 (code bug): the round trip the spec requires cannot take place:
crypto-js has no GCM mode, so the cfg passed by encryptReport and
decryptReport carries mode undefined and CryptoJS.AES.encrypt/decrypt throw
TypeError for every input; encryptReport never returns a payload and
decryptReport never returns fields, shown for all inputs and evaluated at
the concrete failing input. -/
theorem c8_round_trip_impossible :
    (∀ (f : ReportFields) (key : String) (salt : Nat),
      E2EECrypto.encryptReport f key salt =
        Except.error "TypeError: Cannot read properties of undefined (reading createEncryptor)") ∧
    (∀ (e : EncryptedPayload) (key : String),
      E2EECrypto.decryptReport e key =
        Except.error "TypeError: Cannot read properties of undefined (reading createDecryptor)") ∧
    E2EECrypto.encryptReport ⟨"title", "desc", "general", "medium"⟩ "report-key" 1 =
      Except.error "TypeError: Cannot read properties of undefined (reading createEncryptor)" := by
  refine ⟨fun f key salt => rfl, fun e key => rfl, rfl⟩

/-- C9 (amended): unwrapKey performs unauthenticated decryption with no
uniform error: with the correct recipient secret it recovers the key, but
with a wrong secret it can return a garbage key string as a value (no
UnwrapFailed error exists; the only possible failure is a UTF-8 decoding
error on the garbage bytes, which depends on the inputs). -/
theorem c9_unwrap_unauthenticated :
    (∀ (k pub : String) (salt : Nat),
      E2EECrypto.unwrapKey (E2EECrypto.wrapKey k pub salt) pub = some k) ∧
    (E2EECrypto.unwrapKey (E2EECrypto.wrapKey "K2" "P2" 5) "Y").isSome = true ∧
    E2EECrypto.unwrapKey (E2EECrypto.wrapKey "K2" "P2" 5) "Y" ≠ some "K2" := by
  refine ⟨?_, by decide, by decide⟩
  intro k pub salt
  show wordsToUtf8 (aesDecryptRaw (aesEncrypt k pub salt) pub) = some k
  rw [aesDecryptRaw_aesEncrypt, wordsToUtf8_map_toNat]

/-- C9 counterexample: a recipient secret that does not authenticate the
wrapped key (a wrong key) does not make unwrapKey fail: unwrapKey returns a
value, and that value differs from the wrapped report key. -/
theorem c9_uniform_error_counterexample :
    (E2EECrypto.unwrapKey (E2EECrypto.wrapKey "K1" "P" 3) "X").isSome = true ∧
    E2EECrypto.unwrapKey (E2EECrypto.wrapKey "K1" "P" 3) "X" ≠ some "K1" := by
  refine ⟨by decide, by decide⟩

/-- C5 (amended): computeContentHash is deterministic, but it is a function
of the JSON serialization of the entire encrypted payload object (ciphertext
together with the iv and salt fields), not of the ciphertext bytes alone:
payloads agreeing on all three fields always hash equal, while payloads with
identical ciphertext and different iv hash differently. -/
theorem c5_hash_full_payload :
    (∀ e1 e2 : EncryptedPayload, e1.ciphertext = e2.ciphertext → e1.iv = e2.iv →
      e1.salt = e2.salt → E2EECrypto.hashContent e1 = E2EECrypto.hashContent e2) ∧
    E2EECrypto.hashContent ⟨⟨9, [4]⟩, some "i1", some "9"⟩ ≠
      E2EECrypto.hashContent ⟨⟨9, [4]⟩, some "i2", some "9"⟩ := by
  constructor
  · intro e1 e2 hc hi hs
    rcases e1 with ⟨c1, i1, s1⟩
    rcases e2 with ⟨c2, i2, s2⟩
    cases hc
    cases hi
    cases hs
    rfl
  · decide

theorem c5_hash_full_payload_witness :
    (⟨⟨2, [5]⟩, some "v", none⟩ : EncryptedPayload).ciphertext =
      (⟨⟨2, [5]⟩, some "v", none⟩ : EncryptedPayload).ciphertext ∧
    E2EECrypto.hashContent ⟨⟨2, [5]⟩, some "v", none⟩ =
      E2EECrypto.hashContent ⟨⟨2, [5]⟩, some "v", none⟩ :=
  ⟨rfl, c5_hash_full_payload.1 ⟨⟨2, [5]⟩, some "v", none⟩ ⟨⟨2, [5]⟩, some "v", none⟩
    rfl rfl rfl⟩

/-- C5 counterexample: two payloads with identical ciphertext bytes but a
different iv field hash differently, so the hash input is not the ciphertext
alone. -/
theorem c5_ciphertext_only_counterexample :
    (⟨⟨7, [1, 2, 3]⟩, some "aa", some "7"⟩ : EncryptedPayload).ciphertext =
      (⟨⟨7, [1, 2, 3]⟩, some "bb", some "7"⟩ : EncryptedPayload).ciphertext ∧
    E2EECrypto.hashContent ⟨⟨7, [1, 2, 3]⟩, some "aa", some "7"⟩ ≠
      E2EECrypto.hashContent ⟨⟨7, [1, 2, 3]⟩, some "bb", some "7"⟩ := by
  refine ⟨rfl, by decide⟩

/-- C6 (amended): each submitted attachment is stored in S3 encrypted with
the createCipher cipher whose key is derived from the client-supplied
wrappedKey of the same request (so the at-rest cipher key is NOT independent
of the client's request); S3 server-side encryption AES256 is additionally
requested on the upload. -/
theorem c6_atrest_key_from_wrapped (st : GatewayState) (req : SubmitRequest)
    (rid u now : String) (f : FileUpload)
    (h1 : truthy req.encryptedData = true) (h2 : truthy req.wrappedKey = true)
    (h3 : truthy req.contentHash = true) (hf : req.files = [f]) :
    ((postReports st req rid [u] now).1).s3 =
      st.s3 ++ [("reports/" ++ rid ++ "/" ++ u ++ "-" ++ f.originalname,
        { key := "reports/" ++ rid ++ "/" ++ u ++ "-" ++ f.originalname
          body := createCipherEnc (optStr req.wrappedKey) 0 f.buffer
          contentType := "application/octet-stream"
          serverSideEncryption := "AES256"
          metaOriginalName := f.originalname
          metaReportId := rid })] := by
  have hcond :
      (truthy req.encryptedData && truthy req.wrappedKey && truthy req.contentHash) = true := by
    rw [h1, h2, h3]
    rfl
  rw [postReports, if_pos hcond, hf]
  cases req.ethTxHash <;> rfl

theorem c6_atrest_key_from_wrapped_witness :
    truthy (some "WK1") = true ∧
    ((postReports ⟨[], [], []⟩ ⟨some "E", some "WK1", some "H", none, [⟨"a.png", [10, 20]⟩]⟩
        "r1" ["u1"] "t").1).s3 =
      [] ++ [("reports/" ++ "r1" ++ "/" ++ "u1" ++ "-" ++ "a.png",
        { key := "reports/" ++ "r1" ++ "/" ++ "u1" ++ "-" ++ "a.png"
          body := createCipherEnc (optStr (some "WK1")) 0 [10, 20]
          contentType := "application/octet-stream"
          serverSideEncryption := "AES256"
          metaOriginalName := "a.png"
          metaReportId := "r1" })] :=
  ⟨rfl, c6_atrest_key_from_wrapped ⟨[], [], []⟩
    ⟨some "E", some "WK1", some "H", none, [⟨"a.png", [10, 20]⟩]⟩
    "r1" "u1" "t" ⟨"a.png", [10, 20]⟩ rfl rfl rfl rfl⟩

/-- C6 counterexample: two submissions identical in every respect except the
client-supplied wrappedKey store different encrypted blobs for the same
attachment bytes, so the at-rest encryption depends on a value supplied in
the client's request, contrary to the claimed independence. -/
theorem c6_independent_key_counterexample :
    ((postReports ⟨[], [], []⟩ ⟨some "E", some "WK1", some "H", none, [⟨"a.png", [10, 20]⟩]⟩
        "r1" ["u1"] "t").1).s3 ≠
    ((postReports ⟨[], [], []⟩ ⟨some "E", some "WK2", some "H", none, [⟨"a.png", [10, 20]⟩]⟩
        "r1" ["u1"] "t").1).s3 := by
  decide

/-! ## Contract lemmas -/

theorem submitReport_ok (st : ProofState) (a t H : Nat) (s : String) (st1 : ProofState)
    (hsub : submitReport st a t H s = Except.ok st1) :
    H ≠ 0 ∧ st1.reports = assocSet st.reports H ⟨H, a, t, s, true⟩ := by
  rw [submitReport] at hsub
  by_cases h0 : H = 0
  · rw [if_pos h0] at hsub
    cases hsub
  · rw [if_neg h0] at hsub
    by_cases h1 : s = ""
    · rw [if_pos h1] at hsub
      cases hsub
    · rw [if_neg h1] at hsub
      by_cases h3 : (getReportRec st H).existsFlag = true
      · rw [if_pos h3] at hsub
        cases hsub
      · rw [if_neg h3] at hsub
        injection hsub with hst
        refine ⟨h0, ?_⟩
        rw [← hst]

theorem applyOp_preserves (st : ProofState) (op : ContractOp) (h : Nat)
    (hex : (getReportRec st h).existsFlag = true) :
    (getReportRec (applyOp st op) h).existsFlag = true ∧
    (getReportRec (applyOp st op) h).reporter = (getReportRec st h).reporter := by
  cases op with
  | submit a t h2 s =>
    cases hcall : submitReport st a t h2 s with
    | error e => simp [applyOp, hcall, hex]
    | ok st2 =>
      have hspec := submitReport_ok st a t h2 s st2 hcall
      have hne : h2 ≠ h := by
        intro he
        subst he
        rw [submitReport] at hcall
        rw [if_neg hspec.1] at hcall
        by_cases h1 : s = ""
        · rw [if_pos h1] at hcall
          cases hcall
        · rw [if_neg h1] at hcall
          rw [if_pos hex] at hcall
          cases hcall
      have hrec : getReportRec st2 h = getReportRec st h := by
        show (assocFind st2.reports h).getD emptyReport = _
        rw [hspec.2, assocFind_assocSet_ne _ _ _ (Ne.symm hne)]
        rfl
      simp [applyOp, hcall, hrec, hex]
  | update a h2 s =>
    cases hcall : updateStatus st a h2 s with
    | error e => simp [applyOp, hcall, hex]
    | ok st2 =>
      have hst2 : st2.reports =
          assocSet st.reports h2 { getReportRec st h2 with status := s } := by
        rw [updateStatus] at hcall
        by_cases hc1 : (!(getReportRec st h2).existsFlag) = true
        · rw [if_pos hc1] at hcall
          cases hcall
        · rw [if_neg hc1] at hcall
          by_cases hc2 :
              (!((getReportRec st h2).reporter = a || st.owner = a)) = true
          · rw [if_pos hc2] at hcall
            cases hcall
          · rw [if_neg hc2] at hcall
            by_cases hc3 : s = ""
            · rw [if_pos hc3] at hcall
              cases hcall
            · rw [if_neg hc3] at hcall
              injection hcall with hst
              rw [← hst]
      by_cases hne : h2 = h
      · subst hne
        have hrec : getReportRec st2 h2 = { getReportRec st h2 with status := s } := by
          show (assocFind st2.reports h2).getD emptyReport = _
          rw [hst2, assocFind_assocSet_self]
          rfl
        simp [applyOp, hcall, hrec, hex]
      · have hrec : getReportRec st2 h = getReportRec st h := by
          show (assocFind st2.reports h).getD emptyReport = _
          rw [hst2, assocFind_assocSet_ne _ _ _ (Ne.symm hne)]
          rfl
        simp [applyOp, hcall, hrec, hex]
  | emergency a h2 s =>
    cases hcall : emergencyUpdateStatus st a h2 s with
    | error e => simp [applyOp, hcall, hex]
    | ok st2 =>
      have hst2 : st2.reports =
          assocSet st.reports h2 { getReportRec st h2 with status := s } := by
        rw [emergencyUpdateStatus] at hcall
        by_cases hc1 : (!(st.owner = a)) = true
        · rw [if_pos hc1] at hcall
          cases hcall
        · rw [if_neg hc1] at hcall
          by_cases hc2 : (!(getReportRec st h2).existsFlag) = true
          · rw [if_pos hc2] at hcall
            cases hcall
          · rw [if_neg hc2] at hcall
            injection hcall with hst
            rw [← hst]
      by_cases hne : h2 = h
      · subst hne
        have hrec : getReportRec st2 h2 = { getReportRec st h2 with status := s } := by
          show (assocFind st2.reports h2).getD emptyReport = _
          rw [hst2, assocFind_assocSet_self]
          rfl
        simp [applyOp, hcall, hrec, hex]
      · have hrec : getReportRec st2 h = getReportRec st h := by
          show (assocFind st2.reports h).getD emptyReport = _
          rw [hst2, assocFind_assocSet_ne _ _ _ (Ne.symm hne)]
          rfl
        simp [applyOp, hcall, hrec, hex]

theorem runOps_preserves (ops : List ContractOp) (st : ProofState) (h : Nat)
    (hex : (getReportRec st h).existsFlag = true) :
    (getReportRec (runOps st ops) h).existsFlag = true ∧
    (getReportRec (runOps st ops) h).reporter = (getReportRec st h).reporter := by
  induction ops generalizing st with
  | nil => exact ⟨hex, rfl⟩
  | cons op t ih =>
    have h1 := applyOp_preserves st op h hex
    have h2 := ih (applyOp st op) h1.1
    exact ⟨h2.1, h2.2.trans h1.2⟩

/-- C7: once anchor(H, s) has succeeded, any later anchor call for the same
hash H, from any caller and after any sequence of further contract calls,
reverts with the duplicate-report error ("Report already exists", the
DuplicateHash rejection), and getProof for H still reports the first
submitter as reporter. -/
theorem c7_duplicate_anchor_rejected (st : ProofState) (a1 t1 H : Nat) (s1 : String)
    (st1 : ProofState) (hsub : submitReport st a1 t1 H s1 = Except.ok st1)
    (ops : List ContractOp) (a2 t2 : Nat) (s2 : String) (hs2 : s2 ≠ "") :
    submitReport (runOps st1 ops) a2 t2 H s2 = Except.error "Report already exists" ∧
    reporterOf (getReport (runOps st1 ops) H) = some a1 := by
  have hspec := submitReport_ok st a1 t1 H s1 st1 hsub
  have hrec : getReportRec st1 H = ⟨H, a1, t1, s1, true⟩ := by
    show (assocFind st1.reports H).getD emptyReport = _
    rw [hspec.2, assocFind_assocSet_self]
    rfl
  have hex : (getReportRec st1 H).existsFlag = true := by rw [hrec]
  have hpres := runOps_preserves ops st1 H hex
  constructor
  · rw [submitReport, if_neg hspec.1, if_neg hs2, if_pos hpres.1]
  · rw [getReport, if_pos hpres.1]
    show some (getReportRec (runOps st1 ops) H).reporter = some a1
    rw [hpres.2, hrec]

theorem c7_duplicate_anchor_rejected_witness :
    submitReport ⟨[], [], 0⟩ 1 10 42 "submitted" =
      Except.ok ⟨[(42, ⟨42, 1, 10, "submitted", true⟩)], [(1, [42])], 0⟩ ∧
    ("again" : String) ≠ "" ∧
    (submitReport
        (runOps ⟨[(42, ⟨42, 1, 10, "submitted", true⟩)], [(1, [42])], 0⟩
          [ContractOp.submit 2 11 42 "dup"]) 3 12 42 "again" =
      Except.error "Report already exists" ∧
    reporterOf
      (getReport
        (runOps ⟨[(42, ⟨42, 1, 10, "submitted", true⟩)], [(1, [42])], 0⟩
          [ContractOp.submit 2 11 42 "dup"]) 42) = some 1) :=
  ⟨rfl, by decide,
    c7_duplicate_anchor_rejected ⟨[], [], 0⟩ 1 10 42 "submitted"
      ⟨[(42, ⟨42, 1, 10, "submitted", true⟩)], [(1, [42])], 0⟩ rfl
      [ContractOp.submit 2 11 42 "dup"] 3 12 "again" (by decide)⟩

/-- C10: the Ethereum client keys the ledger by keccak256 of the UTF-8 bytes
of the content-hash string, identically in submitProof and getProof: after a
successful submitProof(H, s) by a sender, getProof(H) returns exactly the
submitted record (the block timestamp, status s, and the sender as
reporter), even though the on-chain key is keccak256(H), not H. -/
theorem c10_client_keccak_keying (st : ProofState) (a t : Nat) (H s : String)
    (st1 : ProofState) (hsub : submitProof st a t H s = Except.ok st1) :
    getProof st1 H = Except.ok ⟨t, s, a⟩ := by
  have hspec := submitReport_ok st a t (keccakUtf8 H) s st1 hsub
  have hrec : getReportRec st1 (keccakUtf8 H) = ⟨keccakUtf8 H, a, t, s, true⟩ := by
    show (assocFind st1.reports (keccakUtf8 H)).getD emptyReport = _
    rw [hspec.2, assocFind_assocSet_self]
    rfl
  have hex : (getReportRec st1 (keccakUtf8 H)).existsFlag = true := by rw [hrec]
  have hg : getReport st1 (keccakUtf8 H) = Except.ok (t, s, a) := by
    rw [getReport, if_pos hex, hrec]
  rw [getProof, hg]

theorem c10_client_keccak_keying_witness :
    submitProof ⟨[], [], 0⟩ 5 100 "H" "submitted" =
      Except.ok ⟨[(keccakUtf8 "H", ⟨keccakUtf8 "H", 5, 100, "submitted", true⟩)],
        [(5, [keccakUtf8 "H"])], 0⟩ ∧
    getProof (⟨[(keccakUtf8 "H", ⟨keccakUtf8 "H", 5, 100, "submitted", true⟩)],
        [(5, [keccakUtf8 "H"])], 0⟩ : ProofState) "H" =
      Except.ok ⟨100, "submitted", 5⟩ :=
  ⟨rfl,
    c10_client_keccak_keying ⟨[], [], 0⟩ 5 100 "H" "submitted"
      ⟨[(keccakUtf8 "H", ⟨keccakUtf8 "H", 5, 100, "submitted", true⟩)],
        [(5, [keccakUtf8 "H"])], 0⟩ rfl⟩
